import Mathlib

/-!
Shallow embedding of the babyccino server (Python) generation-and-
verification pipeline, for checking the natural-language specification
against the code.

Python strings are modelled as `List Char` (ASCII fragment: the
case-mapping and character-class primitives `str.lower`, `str.isalnum`,
`str.strip` are embedded at their ASCII meaning).  Python exceptions are
modelled with `Option`/`Except`.  JSON decoding (`json.loads`) is embedded
as an executable recursive-descent decoder for the JSON fragment actually
exchanged with the LLM (integer numerals; the standard escapes).  The
completion service is the spec's external collaborator and is modelled as
an oracle parameter.
-/

namespace Babyccino

/-- ASCII fragment of Python `str.isspace` / the default `str.strip`
character set (space, tab, newline, carriage return, vertical tab,
form feed). -/
def pyIsSpace (c : Char) : Bool :=
  c = ' ' || c = '\t' || c = '\n' || c = '\r' || c = '\x0b' || c = '\x0c'

/-- Python `s.strip()` (ASCII whitespace). -/
def pyStrip (l : List Char) : List Char :=
  ((l.dropWhile pyIsSpace).reverse.dropWhile pyIsSpace).reverse

/-- Python `s.startswith(p)`. -/
def pyStartsWith : List Char → List Char → Bool
  | [], _ => true
  | a :: as, l =>
    match l with
    | [] => false
    | b :: bs => a == b && pyStartsWith as bs

/-- Python `s.endswith(p)`. -/
def pyEndsWith (p l : List Char) : Bool :=
  pyStartsWith p.reverse l.reverse

/-- Python `s.find(c)` for a single character, `none` standing for -1. -/
def pyFindChar (c : Char) : List Char → Option Nat
  | [] => none
  | a :: t => if a = c then some 0 else (pyFindChar c t).map (· + 1)

/-- Python `s.rfind(c)` for a single character, `none` standing for -1. -/
def pyRFindChar (c : Char) (l : List Char) : Option Nat :=
  match pyFindChar c l.reverse with
  | some i => some (l.length - 1 - i)
  | none => none

/-- Python slice `s[a:b]` with nonnegative bounds. -/
def pySlice (l : List Char) (a b : Nat) : List Char :=
  (l.take b).drop a

/-- Python `s.split("\n")`. -/
def pySplitLines (l : List Char) : List (List Char) :=
  l.splitOn '\n'

/-- Python `"\n".join(parts)`. -/
def pyJoinLines (parts : List (List Char)) : List Char :=
  List.intercalate ['\n'] parts

/-- Natural-number decimal numeral, for f-string interpolation of
counters such as edge ids. -/
def natChars (n : Nat) : List Char :=
  (Nat.toDigits 10 n)

/-! ## JSON values and `json.loads` -/

/-- JSON values as decoded by Python's `json.loads`: objects become
dicts (here association lists, later keys shadowing earlier ones),
arrays become lists, strings/numbers/booleans/null become the evident
Python values.  Numbers are restricted to the integer numerals the
pipeline exchanges. -/
inductive JsonVal where
  | null : JsonVal
  | bool (b : Bool) : JsonVal
  | num (n : Int) : JsonVal
  | str (s : List Char) : JsonVal
  | arr (items : List JsonVal) : JsonVal
  | obj (fields : List (List Char × JsonVal)) : JsonVal

/-- JSON insignificant whitespace. -/
def jsonIsWs (c : Char) : Bool :=
  c = ' ' || c = '\t' || c = '\n' || c = '\r'

def jsonSkipWs (l : List Char) : List Char :=
  l.dropWhile jsonIsWs

/-- Decode one JSON string body after the opening quote; returns the
decoded characters and the remainder after the closing quote. -/
def jsonStringBody : Nat → List Char → Option (List Char × List Char)
  | 0, _ => none
  | _ + 1, [] => none
  | fuel + 1, c :: rest =>
    if c = '"' then
      some ([], rest)
    else if c = '\\' then
      match rest with
      | [] => none
      | e :: rest2 =>
        let dec : Option Char :=
          if e = '"' then some '"'
          else if e = '\\' then some '\\'
          else if e = '/' then some '/'
          else if e = 'b' then some '\x08'
          else if e = 'f' then some '\x0c'
          else if e = 'n' then some '\n'
          else if e = 'r' then some '\r'
          else if e = 't' then some '\t'
          else none
        match dec with
        | some d =>
          match jsonStringBody fuel rest2 with
          | some (s, rem) => some (d :: s, rem)
          | none => none
        | none => none
    else if c.toNat < 32 then
      none
    else
      match jsonStringBody fuel rest with
      | some (s, rem) => some (c :: s, rem)
      | none => none

/-- Decode a JSON integer numeral (optional minus, no leading zeros). -/
def jsonNumber (l : List Char) : Option (Int × List Char) :=
  let (neg, l2) :=
    match l with
    | '-' :: t => (true, t)
    | _ => (false, l)
  let digits := l2.takeWhile Char.isDigit
  let rest := l2.dropWhile Char.isDigit
  if digits = [] then none
  else if 2 ≤ digits.length && digits.headI = '0' then none
  else
    let v : Int := Int.ofNat (digits.foldl (fun a c => a * 10 + (c.toNat - 48)) 0)
    some (if neg then -v else v, rest)

mutual

/-- Decode one JSON value (fuel-indexed recursive descent). -/
def jsonVal : Nat → List Char → Option (JsonVal × List Char)
  | 0, _ => none
  | fuel + 1, l =>
    match jsonSkipWs l with
    | [] => none
    | c :: rest =>
      if c = '[' then
        match jsonArrRest fuel rest with
        | some (items, rem) => some (.arr items, rem)
        | none => none
      else if c = '\x7b' then
        match jsonObjRest fuel rest with
        | some (fields, rem) => some (.obj fields, rem)
        | none => none
      else if c = '"' then
        match jsonStringBody (rest.length + 1) rest with
        | some (s, rem) => some (.str s, rem)
        | none => none
      else if c = 't' then
        if pyStartsWith ("rue".toList) rest then some (.bool true, rest.drop 3) else none
      else if c = 'f' then
        if pyStartsWith ("alse".toList) rest then some (.bool false, rest.drop 4) else none
      else if c = 'n' then
        if pyStartsWith ("ull".toList) rest then some (.null, rest.drop 3) else none
      else
        match jsonNumber (c :: rest) with
        | some (v, rem) => some (.num v, rem)
        | none => none

/-- Decode the remainder of a JSON array, the opening `[` already
consumed. -/
def jsonArrRest : Nat → List Char → Option (List JsonVal × List Char)
  | 0, _ => none
  | fuel + 1, l =>
    match jsonSkipWs l with
    | ']' :: rem => some ([], rem)
    | l2 =>
      match jsonVal fuel l2 with
      | some (v, rem) =>
        match jsonSkipWs rem with
        | ',' :: rem2 =>
          match jsonArrMore fuel rem2 with
          | some (vs, rem3) => some (v :: vs, rem3)
          | none => none
        | ']' :: rem2 => some ([v], rem2)
        | _ => none
      | none => none

/-- Decode array elements after a comma (at least one element must
follow). -/
def jsonArrMore : Nat → List Char → Option (List JsonVal × List Char)
  | 0, _ => none
  | fuel + 1, l =>
    match jsonVal fuel l with
    | some (v, rem) =>
      match jsonSkipWs rem with
      | ',' :: rem2 =>
        match jsonArrMore fuel rem2 with
        | some (vs, rem3) => some (v :: vs, rem3)
        | none => none
      | ']' :: rem2 => some ([v], rem2)
      | _ => none
    | none => none

/-- Decode the remainder of a JSON object, the opening brace already
consumed. -/
def jsonObjRest : Nat → List Char → Option (List (List Char × JsonVal) × List Char)
  | 0, _ => none
  | fuel + 1, l =>
    match jsonSkipWs l with
    | '\x7d' :: rem => some ([], rem)
    | l2 =>
      match jsonObjMember fuel l2 with
      | some (kv, rem) =>
        match jsonSkipWs rem with
        | ',' :: rem2 =>
          match jsonObjMore fuel rem2 with
          | some (kvs, rem3) => some (kv :: kvs, rem3)
          | none => none
        | '\x7d' :: rem2 => some ([kv], rem2)
        | _ => none
      | none => none

/-- Decode object members after a comma (at least one member must
follow). -/
def jsonObjMore : Nat → List Char → Option (List (List Char × JsonVal) × List Char)
  | 0, _ => none
  | fuel + 1, l =>
    match jsonObjMember fuel l with
    | some (kv, rem) =>
      match jsonSkipWs rem with
      | ',' :: rem2 =>
        match jsonObjMore fuel rem2 with
        | some (kvs, rem3) => some (kv :: kvs, rem3)
        | none => none
      | '\x7d' :: rem2 => some ([kv], rem2)
      | _ => none
    | none => none

/-- Decode one `"key": value` member. -/
def jsonObjMember : Nat → List Char → Option ((List Char × JsonVal) × List Char)
  | 0, _ => none
  | fuel + 1, l =>
    match jsonSkipWs l with
    | '"' :: rest =>
      match jsonStringBody (rest.length + 1) rest with
      | some (k, rem) =>
        match jsonSkipWs rem with
        | ':' :: rem2 =>
          match jsonVal fuel rem2 with
          | some (v, rem3) => some ((k, v), rem3)
          | none => none
        | _ => none
      | none => none
    | _ => none

end

/-- Python `json.loads`: decode one value and require only whitespace to
remain. -/
def jsonParse (l : List Char) : Option JsonVal :=
  match jsonVal (2 * l.length + 8) l with
  | some (v, rem) => if jsonSkipWs rem = [] then some v else none
  | none => none

/-! ## Python value semantics on decoded JSON -/

/-- Python truthiness (`bool(x)`) of a `json.loads` result: `None`,
`False`, zero, the empty string, the empty list and the empty dict are
falsy; everything else is truthy. -/
def pyTruthy : JsonVal → Bool
  | .null => false
  | .bool b => b
  | .num n => n != 0
  | .str s => !s.isEmpty
  | .arr items => !items.isEmpty
  | .obj fields => !fields.isEmpty

/-- Escape one character for Python `repr` of a string (single-quoted). -/
def pyReprEsc (c : Char) : List Char :=
  if c = '\'' then ['\\', '\'']
  else if c = '\\' then ['\\', '\\']
  else [c]

mutual

/-- Python `repr` of a `json.loads` result (the fragment used here:
containers render their elements comma-separated with `repr`d
strings). -/
def pyRepr : JsonVal → List Char
  | .null => "None".toList
  | .bool true => "True".toList
  | .bool false => "False".toList
  | .num n => (toString n).toList
  | .str s => '\'' :: (s.flatMap pyReprEsc) ++ ['\'']
  | .arr items => '[' :: pyReprItems items ++ [']']
  | .obj fields => '\x7b' :: pyReprFields fields ++ ['\x7d']

def pyReprItems : List JsonVal → List Char
  | [] => []
  | [v] => pyRepr v
  | v :: vs => pyRepr v ++ ", ".toList ++ pyReprItems vs

def pyReprFields : List (List Char × JsonVal) → List Char
  | [] => []
  | [(k, v)] => pyRepr (.str k) ++ ": ".toList ++ pyRepr v
  | (k, v) :: kvs => pyRepr (.str k) ++ ": ".toList ++ pyRepr v ++ ", ".toList ++ pyReprFields kvs

end

/-- Python `str(x)` of a `json.loads` result: strings render as
themselves, everything else as its `repr`. -/
def pyStrOf (v : JsonVal) : List Char :=
  match v with
  | .str s => s
  | v => pyRepr v

/-- Lookup in a dict built by `json.loads` (`dict.get`): with duplicate
keys in the source text the last occurrence wins. -/
def objGetLast (fields : List (List Char × JsonVal)) (k : List Char) : Option JsonVal :=
  ((fields.filter (fun kv => kv.1 = k)).getLast?).map (·.2)

/-! ## Test Proposer (`services/test_proposer.py`) -/

/-- `models/responses.py` `ProposedTestCase`. -/
structure ProposedTestCase where
  id : List Char
  description : List Char
  input : List Char
  expected_output : List Char
  is_edge_case : Bool
deriving DecidableEq, Repr

/-- The fence-stripping step of `_parse_proposed_tests`: when the
cleaned text starts with three backticks, drop the first line, and also
the last line when it strips to three backticks. -/
def stripProposerFence (cleaned : List Char) : List Char :=
  let lines := pySplitLines cleaned
  if pyStrip (lines.getLastD []) = "```".toList then
    pyJoinLines ((lines.drop 1).dropLast)
  else
    pyJoinLines (lines.drop 1)

/-- Field mapping of one decoded array element in
`_parse_proposed_tests`.  A non-dict element has no `.get` and raises
`AttributeError`; a dict whose `description` is not a string fails
`ProposedTestCase` validation; both are caught and the element skipped
(`none`).  `input`/`expected_output` are coerced with `str`,
`is_edge_case` with `bool`.  The `uuid.uuid4()` id is modelled by the
injected `id` value. -/
def mapProposedItem (id : List Char) (item : JsonVal) : Option ProposedTestCase :=
  match item with
  | .obj fields =>
    let inputV := pyStrOf ((objGetLast fields ("input".toList)).getD (.str []))
    let expectedV := pyStrOf ((objGetLast fields ("expected_output".toList)).getD (.str []))
    let edgeV := pyTruthy ((objGetLast fields ("is_edge_case".toList)).getD (.bool false))
    match objGetLast fields ("description".toList) with
    | some (.str d) =>
      some { id := id, description := d, input := inputV,
             expected_output := expectedV, is_edge_case := edgeV }
    | some _ => none
    | none =>
      some { id := id, description := "Test case".toList, input := inputV,
             expected_output := expectedV, is_edge_case := edgeV }
  | _ => none

/-- `_fallback_tests`: the single canned test case returned when the LLM
response yields no usable test cases. -/
def fallbackTests (ids : Nat → List Char) : List ProposedTestCase :=
  [{ id := ids 0,
     description := "Basic test — replace with actual test cases".toList,
     input := "\"example\"".toList,
     expected_output := "True".toList,
     is_edge_case := false }]

/-- The cleaning step of `_parse_proposed_tests`: strip whitespace, then
strip one opening fence if present. -/
def proposerCleaned (raw : List Char) : List Char :=
  let cleaned := pyStrip raw
  if pyStartsWith ("```".toList) cleaned then stripProposerFence cleaned else cleaned

/-- The array-locating step of `_parse_proposed_tests`: the slice from
the first `[` to the last `]` of the cleaned text, or `none` when either
is absent (`start == -1 or end == -1`). -/
def proposerSliceOf (raw : List Char) : Option (List Char) :=
  match pyFindChar '[' (proposerCleaned raw), pyRFindChar ']' (proposerCleaned raw) with
  | some s, some e => some (pySlice (proposerCleaned raw) s (e + 1))
  | some _, none => none
  | none, _ => none

/-- `_parse_proposed_tests`: clean the response, locate the first `[`
and last `]`, `json.loads` that slice, map elements permissively, and
fall back to the canned case when nothing is recovered.  `ids n` is the
`uuid.uuid4()` drawn for the element at index `n` (the fallback case
draws `ids 0`).  When the `json.loads` succeeds the decoded value is an
array, since the slice starts with `[`; the non-array branch below is
dead code mirroring the decode-failure fallback. -/
def parseProposedTests (ids : Nat → List Char) (raw : List Char) : List ProposedTestCase :=
  match proposerSliceOf raw with
  | some sub =>
    (match jsonParse sub with
     | some (.arr items) =>
       let tests := items.enum.filterMap (fun p => mapProposedItem (ids p.1) p.2)
       if tests.isEmpty then fallbackTests ids else tests
     | some _ => fallbackTests ids
     | none => fallbackTests ids)
  | none => fallbackTests ids

/-! ## Request model (`models/requests.py`) -/

/-- `ApprovedTestCase`. -/
structure ApprovedTestCase where
  id : List Char
  description : List Char
  input : List Char
  expected_output : List Char
  is_edge_case : Bool
deriving DecidableEq, Repr

/-- `FunctionParameter`. -/
structure FunctionParameter where
  name : List Char
  type : List Char
  description : List Char
deriving DecidableEq, Repr

/-- `FunctionExample`. -/
structure FunctionExample where
  input : List Char
  output : List Char
deriving DecidableEq, Repr

/-- `FunctionRequirements`. -/
structure FunctionRequirements where
  name : List Char
  purpose : List Char
  parameters : List FunctionParameter
  return_type : List Char
  edge_cases : List (List Char)
  examples : List FunctionExample
  conversation_transcript : Option (List Char)
deriving DecidableEq, Repr

/-- `GenerateCodeRequest` (after pydantic validation: `requirements`
must be non-empty, which the response model also relies on). -/
structure GenerateCodeRequest where
  conversation_id : Option (List Char)
  requirements : List FunctionRequirements
  approved_tests : Option (List ApprovedTestCase)
deriving DecidableEq, Repr

/-! ## Code Generator (`services/code_generator.py`) -/

/-- Python `str.isalnum`, embedded on the Latin-1 fragment (code points
below 0x100), where the Unicode tables are fixed and small: the ASCII
digits and letters; the ordinal indicators `ª`/`º`, the superscript
numerals `¹²³`, the vulgar fractions `¼½¾` and the micro sign `µ`; and
the Latin-1 letters `À`–`ÿ` except `×` and `÷`.  Characters above the
fragment are treated as non-alphanumeric; no theorem depends on them. -/
def pyIsAlnum (c : Char) : Bool :=
  (48 ≤ c.toNat && c.toNat ≤ 57) ||
  (65 ≤ c.toNat && c.toNat ≤ 90) ||
  (97 ≤ c.toNat && c.toNat ≤ 122) ||
  (c.toNat == 170) || (c.toNat == 178) || (c.toNat == 179) ||
  (c.toNat == 181) || (c.toNat == 185) || (c.toNat == 186) ||
  (c.toNat == 188) || (c.toNat == 189) || (c.toNat == 190) ||
  (192 ≤ c.toNat && c.toNat ≤ 255 && c.toNat != 215 && c.toNat != 247)

/-- Python `str.lower`, one character, embedded on the Latin-1
fragment: `A`–`Z` and the Latin-1 uppercase letters `À`–`Ö`, `Ø`–`Þ`
map down by 32; everything else in the fragment is caseless or already
lowercase.  Characters above the fragment are left unchanged; no
theorem depends on them. -/
def pyToLower (c : Char) : Char :=
  if (65 ≤ c.toNat ∧ c.toNat ≤ 90) ∨ (192 ≤ c.toNat ∧ c.toNat ≤ 214) ∨
      (216 ≤ c.toNat ∧ c.toNat ≤ 222) then
    Char.ofNat (c.toNat + 32)
  else c

/-- The description-sanitizing chain of `_build_test_code_from_approved`:
lower-case, space/hyphen/slash to underscore, quotes removed, remaining
non-alphanumeric non-underscore characters dropped, truncated to 60
characters. -/
def sanitizeDescription (d : List Char) : List Char :=
  let s1 := d.map pyToLower
  let s2 := s1.map (fun c => if c = ' ' then '_' else c)
  let s3 := s2.filter (fun c => c ≠ '\'')
  let s4 := s3.filter (fun c => c ≠ '"')
  let s5 := s4.map (fun c => if c = '-' then '_' else c)
  let s6 := s5.map (fun c => if c = '/' then '_' else c)
  let s7 := s6.filter (fun c => pyIsAlnum c || c = '_')
  s7.take 60

/-- The assertion statement materialized for one approved case:
`assert fn(input) == expected_output` at test-body indentation. -/
def assertLineOf (fn : List Char) (t : ApprovedTestCase) : List Char :=
  "    assert ".toList ++ fn ++ "(".toList ++ t.input ++ ") == ".toList ++ t.expected_output

/-- The lines accumulated by `_build_test_code_from_approved` for one
approved case: test function header, docstring, assertion, blank. -/
def approvedCaseLines (fn : List Char) (t : ApprovedTestCase) : List (List Char) :=
  [ "def test_".toList ++ sanitizeDescription t.description ++ "():".toList,
    "    \"\"\"".toList ++ t.description ++ "\"\"\"".toList,
    assertLineOf fn t,
    [] ]

/-- All lines accumulated by `_build_test_code_from_approved`. -/
def buildTestLines (req : FunctionRequirements) (approved : List ApprovedTestCase) :
    List (List Char) :=
  ("from function import ".toList ++ req.name) :: [] :: approved.flatMap (approvedCaseLines req.name)

/-- `_build_test_code_from_approved`: deterministic pytest source from
user-approved test cases (no LLM call). -/
def buildTestCodeFromApproved (req : FunctionRequirements)
    (approved : List ApprovedTestCase) : List Char :=
  pyJoinLines (buildTestLines req approved)

/-! ## Test Runner (`services/test_runner.py`)

The result-line pattern `test_\w+\.py::(\w+)\s+(PASSED|FAILED)` and the
summary pattern `([\d\s\w,]+)\s+in\s+[\d\.]+s` are embedded as direct
executable matchers.  Within the result-line pattern every repeated
class is disjoint from what follows it, so greedy matching with
backtracking coincides with maximal munch; the summary pattern's first
group overlaps its continuation, so its group is found by trying
lengths longest-first exactly as the backtracking engine does. -/

/-- `models/responses.py` `TestCaseResult`. -/
structure TestCaseResult where
  name : List Char
  passed : Bool
  output : List Char
deriving DecidableEq, Repr

/-- ASCII fragment of the regex class `\w` (the pytest output scanned
here is ASCII). -/
def pyIsWordChar (c : Char) : Bool :=
  (97 ≤ c.toNat && c.toNat ≤ 122) ||
  (65 ≤ c.toNat && c.toNat ≤ 90) ||
  (48 ≤ c.toNat && c.toNat ≤ 57) || c = '_'

/-- Match `test_\w+\.py::(\w+)\s+(PASSED|FAILED)` at the head of `l`;
returns the captured name, the pass flag, and the remainder after the
match. -/
def matchTestLine (l : List Char) : Option ((List Char × Bool) × List Char) :=
  if pyStartsWith ("test_".toList) l then
    let r1 := l.drop 5
    let modw := r1.takeWhile pyIsWordChar
    if modw.isEmpty then none else
    let r2 := r1.drop modw.length
    if pyStartsWith (".py::".toList) r2 then
      let r3 := r2.drop 5
      let name := r3.takeWhile pyIsWordChar
      if name.isEmpty then none else
      let r4 := r3.drop name.length
      let ws := r4.takeWhile pyIsSpace
      if ws.isEmpty then none else
      let r5 := r4.drop ws.length
      if pyStartsWith ("PASSED".toList) r5 then some ((name, true), r5.drop 6)
      else if pyStartsWith ("FAILED".toList) r5 then some ((name, false), r5.drop 6)
      else none
    else none
  else none

/-- `re.findall` of the result-line pattern: left-to-right,
non-overlapping. -/
def scanTestAux : Nat → List Char → List (List Char × Bool)
  | 0, _ => []
  | _ + 1, [] => []
  | fuel + 1, c :: rest =>
    match matchTestLine (c :: rest) with
    | some (g, rem) => g :: scanTestAux fuel rem
    | none => scanTestAux fuel rest

def scanTestResults (output : List Char) : List (List Char × Bool) :=
  scanTestAux output.length output

/-- First index at which `needle` occurs in `hay` (Python substring
search). -/
def firstOccurIdx (needle : List Char) : List Char → Option Nat
  | [] => if pyStartsWith needle [] then some 0 else none
  | c :: t =>
    if pyStartsWith needle (c :: t) then some 0
    else (firstOccurIdx needle t).map (· + 1)

/-- Does `test_\w+\.py::` match at the head of `l`? -/
def isHeaderAt (l : List Char) : Bool :=
  pyStartsWith ("test_".toList) l &&
  (let r1 := l.drop 5
   let modw := r1.takeWhile pyIsWordChar
   !modw.isEmpty && pyStartsWith (".py::".toList) (r1.drop modw.length))

/-- Index of the first position in `l` where `test_\w+\.py::` matches,
or `l.length` (the `\Z` alternative of the lookahead). -/
def nextHeaderIdx : List Char → Nat
  | [] => 0
  | c :: t => if isHeaderAt (c :: t) then 0 else 1 + nextHeaderIdx t

/-- The failed-test diagnostic extraction: search
`rf"{test_name}.*?(?=test_\w+\.py::|\Z)"` with DOTALL over the whole
output and strip the match; empty when the name is not found. -/
def failureOutput (name output : List Char) : List Char :=
  match firstOccurIdx name output with
  | none => []
  | some p =>
    let q := nextHeaderIdx (output.drop (p + name.length))
    pyStrip (pySlice output p (p + name.length + q))

/-- `_parse_pytest_output`: one `TestCaseResult` per pattern match, a
failure detail for FAILED matches, and the synthetic `unknown` result
when nothing matched. -/
def parsePytestOutput (output : List Char) : List TestCaseResult :=
  let results := (scanTestResults output).map (fun m =>
    { name := m.1, passed := m.2,
      output := if m.2 then [] else failureOutput m.1 output })
  if results.isEmpty then
    [{ name := "unknown".toList, passed := false,
       output := "No tests found in output".toList }]
  else results

/-- The character class `[\d\s\w,]` of the summary pattern. -/
def summaryClassChar (c : Char) : Bool :=
  pyIsWordChar c || pyIsSpace c || c = ','

/-- Does `\s+in\s+[\d\.]+s` match at the head of `rest`?  Each repeated
class here is disjoint from its successor, so maximal munch is exact. -/
def summaryTailAt (rest : List Char) : Bool :=
  let w1 := rest.takeWhile pyIsSpace
  !w1.isEmpty &&
  (let r1 := rest.drop w1.length
   pyStartsWith ("in".toList) r1 &&
   (let r2 := r1.drop 2
    let w2 := r2.takeWhile pyIsSpace
    !w2.isEmpty &&
    (let r3 := r2.drop w2.length
     let num := r3.takeWhile (fun c => c.isDigit || c = '.')
     !num.isEmpty && pyStartsWith ("s".toList) (r3.drop num.length))))

/-- Longest `k ≤ bound` with `k ≥ 1` such that the summary tail matches
after a `k`-character first group (the backtracking order of the greedy
group). -/
def tryGroup1Len : Nat → List Char → Option Nat
  | 0, _ => none
  | k + 1, l => if summaryTailAt (l.drop (k + 1)) then some (k + 1) else tryGroup1Len k l

/-- `re.search` of `([\d\s\w,]+)\s+in\s+[\d\.]+s`: leftmost start
position, greedy first group; returns the first group. -/
def searchSummaryAux : Nat → List Char → Option (List Char)
  | 0, _ => none
  | fuel + 1, l =>
    match tryGroup1Len (l.takeWhile summaryClassChar).length l with
    | some k => some (l.take k)
    | none =>
      match l with
      | [] => none
      | _ :: t => searchSummaryAux fuel t

/-- `_extract_summary`: the stripped first group of the summary pattern,
or the fixed sentinel when the pattern matches nowhere. -/
def extractSummary (output : List Char) : List Char :=
  match searchSummaryAux (output.length + 1) output with
  | some g => pyStrip g
  | none => "Unknown test results".toList

/-! ## Complexity Analyzer (`services/complexity_analyzer.py`)

The completion service is the external collaborator; its behaviour on
one call is `Except err text`: either the call raises (`error`, with the
exception text) or returns the response text (`ok`). -/

/-- `models/responses.py` `ComplexityResult`. -/
structure ComplexityResult where
  time : List Char
  space : List Char
  explanation : List Char
deriving DecidableEq, Repr

/-- Building `ComplexityResult(time=data["time"], ...)` from the decoded
JSON: a missing key raises `KeyError`, a non-dict raises `TypeError`, a
non-string field fails pydantic validation; all of these land in the
generic `except Exception` handler, so they are collapsed into one error
carrying the exception text. -/
def complexityFromJson (v : JsonVal) : Except (List Char) ComplexityResult :=
  match v with
  | .obj fields =>
    match objGetLast fields ("time".toList), objGetLast fields ("space".toList),
          objGetLast fields ("explanation".toList) with
    | some (.str t), some (.str s), some (.str e) =>
      .ok { time := t, space := s, explanation := e }
    | _, _, _ => .error ("missing or non-string field".toList)
  | _ => .error ("response is not a JSON object".toList)

/-- `ComplexityAnalyzer.analyze`: fence stripping, `json.loads`, field
extraction; a decode failure yields the fixed sentinel, any other
failure (including the completion call itself raising) yields the
sentinel with the exception text — the function always returns a
`ComplexityResult`. -/
def analyzeComplexity (svc : Except (List Char) (List Char)) : ComplexityResult :=
  match svc with
  | .error e =>
    { time := "O(?)".toList, space := "O(?)".toList,
      explanation := "Failed to analyze complexity: ".toList ++ e }
  | .ok resp =>
    let r := pyStrip resp
    let r := if pyStartsWith ("```json".toList) r then r.drop 7 else r
    let r := if pyStartsWith ("```".toList) r then r.drop 3 else r
    let r := if pyEndsWith ("```".toList) r then r.take (r.length - 3) else r
    let r := pyStrip r
    match jsonParse r with
    | none =>
      { time := "O(?)".toList, space := "O(?)".toList,
        explanation := "Failed to analyze complexity - invalid response format.".toList }
    | some v =>
      match complexityFromJson v with
      | .ok c => c
      | .error e =>
        { time := "O(?)".toList, space := "O(?)".toList,
          explanation := "Failed to analyze complexity: ".toList ++ e }

/-! ## Code Generator pipeline and `/generate-code`
(`services/code_generator.py`, `api/generate.py`) -/

/-- `models/responses.py` `TestResult`. -/
structure TestResult where
  code : List Char
  results : List TestCaseResult
  summary : List Char
deriving DecidableEq, Repr

/-- `models/responses.py` `CodeResult`. -/
structure CodeResult where
  function_name : List Char
  function : List Char
  tests : TestResult
  complexity : ComplexityResult
deriving DecidableEq, Repr

/-- The external collaborators of one `/generate-code` request: the
completion service's responses at each call site (keyed by the data that
`code_generator.py` renders into the prompt) and the pytest subprocess's
merged output. -/
structure Env where
  functionResponse : FunctionRequirements → Option (List ApprovedTestCase) → List Char
  testsResponse : FunctionRequirements → List Char → List Char
  pytestOutput : List Char → List Char → List Char
  complexityBehaviour : List Char → Except (List Char) (List Char)

/-- The fenced-code stripping shared by `_generate_function_code` and
`_generate_tests`: strip, drop one leading ```` ```python ````/```` ``` ````
marker, drop one trailing ```` ``` ````, strip. -/
def stripCodeFence (resp : List Char) : List Char :=
  let code := pyStrip resp
  let code :=
    if pyStartsWith ("```python".toList) code then code.drop 9
    else if pyStartsWith ("```".toList) code then code.drop 3
    else code
  let code := if pyEndsWith ("```".toList) code then code.take (code.length - 3) else code
  pyStrip code

/-- Python truthiness of the `approved_tests` argument
(`if approved_tests:`): `None` and the empty list are falsy. -/
def approvedTruthy : Option (List ApprovedTestCase) → Bool
  | some (_ :: _) => true
  | _ => false

/-- `CodeGenerator.generate_function`: synthesize the function code,
materialize tests from approved cases when any are given (otherwise ask
the service for tests), run them, analyze complexity, and assemble the
`CodeResult`. -/
def generateFunction (env : Env) (req : FunctionRequirements)
    (approved : Option (List ApprovedTestCase)) : CodeResult :=
  let functionCode := stripCodeFence (env.functionResponse req approved)
  let testCode :=
    if approvedTruthy approved then buildTestCodeFromApproved req (approved.getD [])
    else stripCodeFence (env.testsResponse req functionCode)
  let out := env.pytestOutput functionCode testCode
  { function_name := req.name,
    function := functionCode,
    tests := { code := testCode, results := parsePytestOutput out,
               summary := extractSummary out },
    complexity := analyzeComplexity (env.complexityBehaviour functionCode) }

/-- `CodeGenerator.generate_functions`: sequential loop; the approved
tests are given to a requirement iff it compares equal
(`requirements == requirements_list[0]`) to the first one. -/
def generateFunctions (env : Env) (reqs : List FunctionRequirements)
    (approved : Option (List ApprovedTestCase)) : List CodeResult :=
  match reqs with
  | [] => []
  | r0 :: _ =>
    reqs.map (fun r => generateFunction env r (if r = r0 then approved else none))

/-- `models/responses.py` `GenerateCodeResponse`. -/
structure GenerateCodeResponse where
  conversation_id : List Char
  results : List CodeResult
deriving DecidableEq, Repr

/-- Python `request.conversation_id or str(uuid.uuid4())` (the empty
string is falsy). -/
def conversationIdOr (o : Option (List Char)) (uuid : List Char) : List Char :=
  match o with
  | some s => if s.isEmpty then uuid else s
  | none => uuid

/-- The `/generate-code` endpoint body (`api/generate.py`
`generate_code`): it calls
`generator.generate_functions(request.requirements)` — the request's
`approved_tests` field is not passed on. -/
def generateCodeEndpoint (env : Env) (uuid : List Char)
    (request : GenerateCodeRequest) : GenerateCodeResponse :=
  { conversation_id := conversationIdOr request.conversation_id uuid,
    results := generateFunctions env request.requirements none }

/-! ## Flowchart Generator (`services/flowchart_generator.py`,
`models/flowchart.py`)

Coordinates are modelled as `Int` (the Python model stores floats, but
every coordinate this service constructs is integral). -/

/-- `FlowchartNodeType` (enum member names as in the source). -/
inductive FlowchartNodeType where
  | START | END | PROCESS | DECISION | INPUT | OUTPUT | FUNCTION
deriving DecidableEq, Repr

/-- `FlowchartNode`. -/
structure FlowchartNode where
  id : List Char
  type : FlowchartNodeType
  label : List Char
  x : Int
  y : Int
  function_name : Option (List Char)
  description : Option (List Char)
deriving DecidableEq, Repr

/-- `FlowchartEdge` (`from`/`to` aliases are the fields
`from_node`/`to_node`). -/
structure FlowchartEdge where
  id : List Char
  from_node : List Char
  to_node : List Char
  label : Option (List Char)
deriving DecidableEq, Repr

/-- `Flowchart` (pydantic requires at least one node). -/
structure Flowchart where
  nodes : List FlowchartNode
  edges : List FlowchartEdge
  title : Option (List Char)
  description : Option (List Char)
deriving DecidableEq, Repr

/-- Python `", ".join(...)`. -/
def joinCommaSpace (parts : List (List Char)) : List Char :=
  List.intercalate (", ".toList) parts

/-- `_create_fallback_flowchart`: start → (input when there are
parameters) → function-call node → output → end, with sequential edges;
the input edge id is the literal `"e1"` and later edge ids are
`f"e{len(edges)+1}"`. -/
def fallbackFlowchart (req : FunctionRequirements) : Flowchart :=
  let spacing : Int := 120
  let y0 : Int := 50
  let startNode : FlowchartNode :=
    { id := "start".toList, type := .START, label := "Start".toList,
      x := 200, y := y0, function_name := none, description := none }
  let y1 := y0 + spacing
  let hasParams := !req.parameters.isEmpty
  let inputNode : FlowchartNode :=
    { id := "input".toList, type := .INPUT,
      label := "Input: ".toList ++ joinCommaSpace (req.parameters.map (·.name)),
      x := 200, y := y1, function_name := none, description := none }
  let nodes1 := if hasParams then [startNode, inputNode] else [startNode]
  let edges1 : List FlowchartEdge :=
    if hasParams then
      [{ id := "e1".toList, from_node := "start".toList,
         to_node := "input".toList, label := none }]
    else []
  let lastId1 := if hasParams then "input".toList else "start".toList
  let y2 := if hasParams then y1 + spacing else y1
  let processNode : FlowchartNode :=
    { id := "process".toList, type := .FUNCTION,
      label := req.name ++ "()".toList, x := 200, y := y2,
      function_name := some req.name, description := none }
  let edges2 := edges1 ++
    [{ id := 'e' :: natChars (edges1.length + 1), from_node := lastId1,
       to_node := "process".toList, label := none }]
  let y3 := y2 + spacing
  let outputNode : FlowchartNode :=
    { id := "output".toList, type := .OUTPUT,
      label := "Return ".toList ++ req.return_type, x := 200, y := y3,
      function_name := none, description := none }
  let edges3 := edges2 ++
    [{ id := 'e' :: natChars (edges2.length + 1), from_node := "process".toList,
       to_node := "output".toList, label := none }]
  let y4 := y3 + spacing
  let endNode : FlowchartNode :=
    { id := "end".toList, type := .END, label := "End".toList,
      x := 200, y := y4, function_name := none, description := none }
  let edges4 := edges3 ++
    [{ id := 'e' :: natChars (edges3.length + 1), from_node := "output".toList,
       to_node := "end".toList, label := none }]
  { nodes := nodes1 ++ [processNode, outputNode, endNode],
    edges := edges4,
    title := some (req.name ++ "() Algorithm".toList),
    description := some ("Simple flowchart for ".toList ++ req.purpose) }

/-- Errors escaping `_parse_flowchart_response`: `KeyError` is caught by
`generate_flowchart` (fallback); everything else (`ValueError` from the
enum, `TypeError`, pydantic validation) propagates to the caller. -/
inductive FlowErr where
  | keyErr | otherErr
deriving DecidableEq, Repr

/-- `FlowchartNodeType(value)`: enum lookup by value string. -/
def nodeTypeOfValue (s : List Char) : Option FlowchartNodeType :=
  if s = "start".toList then some .START
  else if s = "end".toList then some .END
  else if s = "process".toList then some .PROCESS
  else if s = "decision".toList then some .DECISION
  else if s = "input".toList then some .INPUT
  else if s = "output".toList then some .OUTPUT
  else if s = "function".toList then some .FUNCTION
  else none

/-- Python `float(x)` on a decoded JSON value, at the integral fragment
this pipeline exchanges: numbers and bools convert, digit strings
convert, everything else raises. -/
def pyFloatOf (v : JsonVal) : Except FlowErr Int :=
  match v with
  | .num n => .ok n
  | .bool b => .ok (if b then 1 else 0)
  | .str s =>
    if !s.isEmpty && s.all Char.isDigit then
      .ok (Int.ofNat (s.foldl (fun a c => a * 10 + (c.toNat - 48)) 0))
    else .error .otherErr
  | _ => .error .otherErr

/-- An optional string field fetched with `.get` (pydantic `str | None`:
a non-string non-null value fails validation). -/
def optStrField (fields : List (List Char × JsonVal)) (k : List Char) :
    Except FlowErr (Option (List Char)) :=
  match objGetLast fields k with
  | none => .ok none
  | some .null => .ok none
  | some (.str s) => .ok (some s)
  | some _ => .error .otherErr

/-- One node of the primary parse path: required subscripts raise
`KeyError` when missing; a bad enum value or non-string label raises
outside the caught classes. -/
def mapFlowNode (nd : JsonVal) : Except FlowErr FlowchartNode :=
  match nd with
  | .obj fields =>
    match objGetLast fields ("id".toList) with
    | none => .error .keyErr
    | some idv =>
      match idv with
      | .str idS =>
        match objGetLast fields ("type".toList) with
        | none => .error .keyErr
        | some tv =>
          match tv with
          | .str tS =>
            match nodeTypeOfValue tS with
            | none => .error .otherErr
            | some ty =>
              match objGetLast fields ("label".toList) with
              | none => .error .keyErr
              | some lv =>
                match lv with
                | .str lS =>
                  match objGetLast fields ("x".toList) with
                  | none => .error .keyErr
                  | some xv =>
                    match objGetLast fields ("y".toList) with
                    | none => .error .keyErr
                    | some yv =>
                      match pyFloatOf xv, pyFloatOf yv with
                      | .ok x, .ok y =>
                        match optStrField fields ("function_name".toList),
                              optStrField fields ("description".toList) with
                        | .ok fn, .ok ds =>
                          .ok { id := idS, type := ty, label := lS, x := x, y := y,
                                function_name := fn, description := ds }
                        | _, _ => .error .otherErr
                      | _, _ => .error .otherErr
                | _ => .error .otherErr
          | _ => .error .otherErr
      | _ => .error .otherErr
  | _ => .error .otherErr

/-- One edge of the primary parse path. -/
def mapFlowEdge (ed : JsonVal) : Except FlowErr FlowchartEdge :=
  match ed with
  | .obj fields =>
    match objGetLast fields ("id".toList), objGetLast fields ("from".toList),
          objGetLast fields ("to".toList) with
    | some (.str idS), some (.str fS), some (.str tS) =>
      match optStrField fields ("label".toList) with
      | .ok lb => .ok { id := idS, from_node := fS, to_node := tS, label := lb }
      | .error e => .error e
    | none, _, _ => .error .keyErr
    | _, none, _ => .error .keyErr
    | _, _, none => .error .keyErr
    | _, _, _ => .error .otherErr
  | _ => .error .otherErr

/-- Iterating `for x in data.get(key, [])`: an array iterates its
elements, an empty string or dict iterates nothing, anything else makes
the per-element subscript raise outside the caught classes. -/
def iterElems (v : JsonVal) : Except FlowErr (List JsonVal) :=
  match v with
  | .arr items => .ok items
  | .str [] => .ok []
  | .obj [] => .ok []
  | _ => .error .otherErr

/-- `_parse_flowchart_response`: map nodes and edges field-by-field and
default title/description from the requirements; an empty node list
fails the model's `min_length=1` validation (uncaught). -/
def parseFlowchartResponse (v : JsonVal) (req : FunctionRequirements) :
    Except FlowErr Flowchart :=
  match v with
  | .obj fields =>
    match iterElems ((objGetLast fields ("nodes".toList)).getD (.arr [])) with
    | .error e => .error e
    | .ok nodeVals =>
      match nodeVals.mapM mapFlowNode with
      | .error e => .error e
      | .ok nodes =>
        match iterElems ((objGetLast fields ("edges".toList)).getD (.arr [])) with
        | .error e => .error e
        | .ok edgeVals =>
          match edgeVals.mapM mapFlowEdge with
          | .error e => .error e
          | .ok edges =>
            if nodes.isEmpty then .error .otherErr
            else
              match optStrField fields ("title".toList),
                    optStrField fields ("description".toList) with
              | .ok t, .ok d =>
                .ok { nodes := nodes, edges := edges,
                      title := some ((t.getD (req.name ++ "() Algorithm".toList))),
                      description := some ((d.getD ("Flowchart for ".toList ++ req.purpose))) }
              | _, _ => .error .otherErr
  | _ => .error .otherErr

/-- Python `sub in text`. -/
def containsSub (needle hay : List Char) : Bool :=
  (firstOccurIdx needle hay).isSome

/-- Python `text.find(sub, start)` (absolute index, `none` for -1). -/
def pyFindSubFrom (needle hay : List Char) (start : Nat) : Option Nat :=
  (firstOccurIdx needle (hay.drop start)).map (· + start)

/-- Python `t[s:e]` where `e` may be the failed `find` result -1 (which
slices to one short of the end). -/
def pySliceToFound (t : List Char) (s : Nat) (e : Option Nat) : List Char :=
  match e with
  | some e => pySlice t s e
  | none => pySlice t s (t.length - 1)

/-- The fenced-JSON extraction of `generate_flowchart`. -/
def extractFlowchartJson (resp : List Char) : List Char :=
  let t := pyStrip resp
  if containsSub ("```json".toList) t then
    let s := (firstOccurIdx ("```json".toList) t).getD 0 + 7
    pyStrip (pySliceToFound t s (pyFindSubFrom ("```".toList) t s))
  else if containsSub ("```".toList) t then
    let s := (firstOccurIdx ("```".toList) t).getD 0 + 3
    pyStrip (pySliceToFound t s (pyFindSubFrom ("```".toList) t s))
  else t

/-- `generate_flowchart` after the completion call returned `resp`:
decode failures and `KeyError` fall back to the deterministic flowchart;
other parse-path exceptions propagate. -/
def generateFlowchart (req : FunctionRequirements) (resp : List Char) :
    Except FlowErr Flowchart :=
  match jsonParse (extractFlowchartJson resp) with
  | none => .ok (fallbackFlowchart req)
  | some v =>
    match parseFlowchartResponse v req with
    | .ok fc => .ok fc
    | .error .keyErr => .ok (fallbackFlowchart req)
    | .error .otherErr => .error .otherErr

/-- A bare-identifier character as the spec describes the sanitized test
names: lowercase ASCII letter, digit, or underscore. -/
def goodIdentChar (c : Char) : Bool :=
  (97 ≤ c.toNat && c.toNat ≤ 122) || (48 ≤ c.toNat && c.toNat ≤ 57) || c = '_'

/-- Is this materialized line an assertion statement? -/
def isAssertLine (l : List Char) : Bool :=
  pyStartsWith ("    assert ".toList) l

/-- Referential integrity of a flowchart: every edge endpoint is the id
of some node (the `Flowchart` model itself never validates this). -/
def flowchartRefIntegrity (fc : Flowchart) : Bool :=
  let ids := fc.nodes.map (fun n => n.id)
  fc.edges.all (fun e => ids.contains e.from_node && ids.contains e.to_node)

/-! ## Concrete sample inputs used to instantiate the theorems -/

/-- A concrete id supply standing in for `uuid.uuid4()`. -/
def sampleIds : Nat → List Char := fun n => natChars n

/-- A response embedding `["x"]` in bracket-free prose. -/
def rawProseArray : List Char :=
  "Here are the tests: [\"x\"] hope that helps".toList

/-- A response whose bracketed array holds eight empty objects. -/
def rawEightObjs : List Char :=
  "[\x7b\x7d,\x7b\x7d,\x7b\x7d,\x7b\x7d,\x7b\x7d,\x7b\x7d,\x7b\x7d,\x7b\x7d]".toList

/-- A response whose single element carries `is_edge_case` as the JSON
string `"false"`. -/
def rawEdgeCaseStr : List Char :=
  "[\x7b\"is_edge_case\": \"false\"\x7d]".toList

/-- A merged pytest output with no recognizable result line but a
summary-shaped trailing clause (pytest prints exactly this when it
collects nothing). -/
def outputNoTestsRan : List Char :=
  "no tests ran in 0.01s".toList

/-- A sample requirement with one parameter. -/
def sampleReq : FunctionRequirements :=
  { name := "is_even".toList, purpose := "check parity".toList,
    parameters := [{ name := "n".toList, type := "int".toList,
                     description := "the number".toList }],
    return_type := "bool".toList, edge_cases := [], examples := [],
    conversation_transcript := none }

/-- The sample requirement without parameters. -/
def sampleReqNoParams : FunctionRequirements :=
  { name := "answer".toList, purpose := "return the answer".toList,
    parameters := [], return_type := "int".toList, edge_cases := [],
    examples := [], conversation_transcript := none }

/-- A sample approved test case. -/
def sampleApproved : ApprovedTestCase :=
  { id := "t1".toList, description := "two is even".toList,
    input := "2".toList, expected_output := "True".toList,
    is_edge_case := false }

/-- An approved test case whose description carries a non-ASCII
alphanumeric character (`²` — a Python-alphanumeric code point). -/
def sampleApprovedUnicode : ApprovedTestCase :=
  { id := "t2".toList, description := "x²".toList, input := "2".toList,
    expected_output := "4".toList, is_edge_case := false }

/-- A concrete environment whose test-synthesis call site answers with a
fixed marker text. -/
def sampleEnv : Env :=
  { functionResponse := fun _ _ => "def is_even(n):\n    return n % 2 == 0".toList,
    testsResponse := fun _ _ => "LLM GENERATED TESTS".toList,
    pytestOutput := fun _ _ => "test_function.py::test_two PASSED\n1 passed in 0.01s".toList,
    complexityBehaviour := fun _ => .ok ("not json".toList) }

/-- The `/generate-code` request of the C1 failing input: one
requirement, one approved test case. -/
def sampleRequest : GenerateCodeRequest :=
  { conversation_id := none, requirements := [sampleReq],
    approved_tests := some [sampleApproved] }

/-! # Theorems -/

/-- C4: for every completion-service behaviour — the call raising, or
returning any text, in particular the unparseable `not json` —
`ComplexityAnalyzer.analyze` returns a `ComplexityResult` (it never
propagates an error); on `not json` the result is the
`O(?)`/`O(?)` sentinel with a non-empty explanation. -/
theorem claim_C4_analyze_never_raises :
    (∀ e, analyzeComplexity (.error e) =
      { time := "O(?)".toList, space := "O(?)".toList,
        explanation := "Failed to analyze complexity: ".toList ++ e }) ∧
    analyzeComplexity (.ok ("not json".toList)) =
      { time := "O(?)".toList, space := "O(?)".toList,
        explanation := "Failed to analyze complexity - invalid response format.".toList } ∧
    (analyzeComplexity (.ok ("not json".toList))).explanation ≠ [] := by
  refine ⟨fun e => rfl, by decide, by decide⟩

/-- C1: the `/generate-code` endpoint never forwards the request's
`approved_tests` to the generator — the response is the same as for the
request with `approved_tests` removed; at the concrete failing input
(one requirement, one approved test) the first result's test code is the
LLM-synthesized text, not the deterministic materialization of the
approved case that the request model documents. -/
theorem claim_C1_endpoint_drops_approved_tests :
    (∀ env uuid cid reqs apv,
      generateCodeEndpoint env uuid
        { conversation_id := cid, requirements := reqs, approved_tests := apv } =
      generateCodeEndpoint env uuid
        { conversation_id := cid, requirements := reqs, approved_tests := none }) ∧
    (generateCodeEndpoint sampleEnv ("u".toList) sampleRequest).results.map
        (fun r => r.tests.code) = ["LLM GENERATED TESTS".toList] ∧
    "LLM GENERATED TESTS".toList ≠ buildTestCodeFromApproved sampleReq [sampleApproved] := by
  refine ⟨fun env uuid cid reqs apv => rfl, by decide, by decide⟩

/-- C9: the fallback flowchart has pairwise-distinct node ids, and every
edge endpoint references an existing node id. -/
theorem claim_C9_fallback_referential_integrity (req : FunctionRequirements) :
    ((fallbackFlowchart req).nodes.map (fun n => n.id)).Nodup ∧
    flowchartRefIntegrity (fallbackFlowchart req) = true := by
  rcases req with ⟨name, purpose, params, rt, ec, ex, ct⟩
  cases params with
  | nil =>
    refine ⟨?_, ?_⟩ <;> simp [fallbackFlowchart, flowchartRefIntegrity]
  | cons p ps =>
    refine ⟨?_, ?_⟩ <;> simp [fallbackFlowchart, flowchartRefIntegrity]

/-- Helper: `_parse_proposed_tests` never returns an empty list — every
branch ends in either the parsed list (guarded non-empty) or the
one-element fallback. -/
theorem parseProposedTests_length_pos (ids : Nat → List Char) (raw : List Char) :
    1 ≤ (parseProposedTests ids raw).length := by
  simp only [parseProposedTests]
  split
  · split
    · split
      · simp [fallbackTests]
      · rename_i hemp
        exact List.length_pos.mpr (fun hnil => hemp (by rw [hnil]; rfl))
    · simp [fallbackTests]
    · simp [fallbackTests]
  · simp [fallbackTests]

/-- C5: with no bracketed array after cleaning, or an undecodable slice,
or zero surviving elements, `_parse_proposed_tests` returns exactly the
canned fallback case (which has `is_edge_case = false`); and for every
response whatsoever the returned list is non-empty. -/
theorem claim_C5_fallback_and_nonempty :
    (∀ ids raw, (pyFindChar '[' (proposerCleaned raw) = none ∨
        pyRFindChar ']' (proposerCleaned raw) = none) →
      parseProposedTests ids raw = fallbackTests ids) ∧
    (∀ ids raw sub, proposerSliceOf raw = some sub →
      jsonParse sub = none →
      parseProposedTests ids raw = fallbackTests ids) ∧
    (∀ ids raw sub items, proposerSliceOf raw = some sub →
      jsonParse sub = some (.arr items) →
      items.enum.filterMap (fun p => mapProposedItem (ids p.1) p.2) = [] →
      parseProposedTests ids raw = fallbackTests ids) ∧
    (∀ ids, (fallbackTests ids).length = 1 ∧
      (fallbackTests ids).map (fun t => t.is_edge_case) = [false]) ∧
    (∀ ids raw, 1 ≤ (parseProposedTests ids raw).length) := by
  refine ⟨?_, ?_, ?_, ?_, parseProposedTests_length_pos⟩
  · intro ids raw h
    have hnone : proposerSliceOf raw = none := by
      simp only [proposerSliceOf]
      rcases h with h | h
      · rw [h]
      · rw [h]
        cases pyFindChar '[' (proposerCleaned raw) <;> rfl
    simp [parseProposedTests, hnone]
  · intro ids raw sub h1 h2
    simp [parseProposedTests, h1, h2]
  · intro ids raw sub items h1 h2 h3
    simp [parseProposedTests, h1, h2, h3]
  · intro ids
    exact ⟨rfl, rfl⟩

/-- C5 witness: the three fallback triggers and the non-emptiness bound
at concrete responses. -/
theorem claim_C5_fallback_and_nonempty_witness :
    parseProposedTests sampleIds ("no array here".toList) = fallbackTests sampleIds ∧
    parseProposedTests sampleIds ("[oops]".toList) = fallbackTests sampleIds ∧
    parseProposedTests sampleIds ("[\"x\"]".toList) = fallbackTests sampleIds ∧
    1 ≤ (parseProposedTests sampleIds ("anything".toList)).length :=
  ⟨claim_C5_fallback_and_nonempty.1 sampleIds ("no array here".toList)
      (Or.inl (by decide)),
   claim_C5_fallback_and_nonempty.2.1 sampleIds ("[oops]".toList)
      ("[oops]".toList) rfl rfl,
   claim_C5_fallback_and_nonempty.2.2.1 sampleIds ("[\"x\"]".toList)
      ("[\"x\"]".toList) [JsonVal.str ['x']] rfl rfl rfl,
   claim_C5_fallback_and_nonempty.2.2.2.2 sampleIds ("anything".toList)⟩

/-- C7 (amended): `propose_tests` always returns at least one proposed
case; the upper bound of 7 is prompt policy, not enforced by the
parsing. -/
theorem claim_C7_at_least_one (ids : Nat → List Char) (raw : List Char) :
    1 ≤ (parseProposedTests ids raw).length :=
  parseProposedTests_length_pos ids raw

/-- C7 counterexample: a response whose array holds eight (empty-object)
elements yields eight proposed cases, violating the claimed upper bound
of 7. -/
theorem claim_C7_counterexample :
    (parseProposedTests sampleIds rawEightObjs).length = 8 ∧
    ¬((parseProposedTests sampleIds rawEightObjs).length ≤ 7) := by
  refine ⟨by decide, by decide⟩

/-- C7 witness: the amended lower bound at a concrete response. -/
theorem claim_C7_at_least_one_witness :
    1 ≤ (parseProposedTests sampleIds ("whatever".toList)).length :=
  claim_C7_at_least_one sampleIds ("whatever".toList)

/-- C10: in the Test Proposer's field mapping `is_edge_case` is coerced
by Python truthiness: any surviving element takes
`bool(item.get("is_edge_case", False))`; a non-empty JSON string —
including `"false"` and `"no"` — yields `true`, while a missing field or
a falsy value yields `false`; end-to-end, an element carrying
`"is_edge_case": "false"` parses to a case with `is_edge_case = true`. -/
theorem claim_C10_edge_case_truthiness :
    (∀ id fields v tc, objGetLast fields ("is_edge_case".toList) = some v →
      mapProposedItem id (.obj fields) = some tc → tc.is_edge_case = pyTruthy v) ∧
    (∀ id fields tc, objGetLast fields ("is_edge_case".toList) = none →
      mapProposedItem id (.obj fields) = some tc → tc.is_edge_case = false) ∧
    (∀ s, pyTruthy (.str s) = !s.isEmpty) ∧
    pyTruthy (.str ("false".toList)) = true ∧
    pyTruthy (.str ("no".toList)) = true ∧
    pyTruthy .null = false ∧ pyTruthy (.bool false) = false ∧
    pyTruthy (.num 0) = false ∧ pyTruthy (.str []) = false ∧
    (parseProposedTests sampleIds rawEdgeCaseStr).map (fun t => t.is_edge_case) = [true] := by
  refine ⟨?_, ?_, fun s => rfl, rfl, rfl, rfl, rfl, by decide, rfl, by decide⟩
  · intro id fields v tc h1 h2
    simp only [mapProposedItem, h1, Option.getD_some] at h2
    split at h2
    · injection h2 with h3; subst h3; rfl
    · exact absurd h2 (by simp)
    · injection h2 with h3; subst h3; rfl
  · intro id fields tc h1 h2
    simp only [mapProposedItem, h1, Option.getD_none] at h2
    split at h2
    · injection h2 with h3; subst h3; rfl
    · exact absurd h2 (by simp)
    · injection h2 with h3; subst h3; rfl

/-- C10 witness: the field-mapping conjuncts at a concrete element. -/
theorem claim_C10_edge_case_truthiness_witness :
    (mapProposedItem ("0".toList)
        (.obj [("is_edge_case".toList, .str ("false".toList))]) =
      some { id := "0".toList, description := "Test case".toList, input := [],
             expected_output := [], is_edge_case := true }) ∧
    ({ id := "0".toList, description := "Test case".toList, input := [],
       expected_output := [],
       is_edge_case := true : ProposedTestCase }.is_edge_case =
      pyTruthy (.str ("false".toList))) ∧
    ({ id := "1".toList, description := "Test case".toList, input := [],
       expected_output := [],
       is_edge_case := false : ProposedTestCase }.is_edge_case = false) :=
  ⟨rfl,
   claim_C10_edge_case_truthiness.1 ("0".toList)
     [("is_edge_case".toList, JsonVal.str ("false".toList))]
     (JsonVal.str ("false".toList))
     { id := "0".toList, description := "Test case".toList, input := [],
       expected_output := [], is_edge_case := true } rfl rfl,
   claim_C10_edge_case_truthiness.2.1 ("1".toList) []
     { id := "1".toList, description := "Test case".toList, input := [],
       expected_output := [], is_edge_case := false } rfl rfl⟩

/-- C3 (amended): when no line of the merged output is recognized by the
result pattern, `run_tests` returns exactly one synthetic result named
`unknown` with `passed = false` (never an empty list); the summary is
the fixed `Unknown test results` sentinel exactly when the independent
summary pattern also matches nowhere — which such outputs need not
satisfy. -/
theorem claim_C3_unknown_result (output : List Char)
    (h : scanTestResults output = []) :
    parsePytestOutput output =
      [{ name := "unknown".toList, passed := false,
         output := "No tests found in output".toList }] ∧
    (searchSummaryAux (output.length + 1) output = none →
      extractSummary output = "Unknown test results".toList) := by
  constructor
  · simp [parsePytestOutput, h]
  · intro h2
    simp [extractSummary, h2]

/-- C3 counterexample: pytest's own empty-collection output
`no tests ran in 0.01s` has no recognizable result line — so the single
`unknown` result is returned — yet the extracted summary is
`no tests ran`, not the fixed sentinel the claim asserts. -/
theorem claim_C3_counterexample :
    scanTestResults outputNoTestsRan = [] ∧
    parsePytestOutput outputNoTestsRan =
      [{ name := "unknown".toList, passed := false,
         output := "No tests found in output".toList }] ∧
    extractSummary outputNoTestsRan = "no tests ran".toList ∧
    extractSummary outputNoTestsRan ≠ "Unknown test results".toList := by
  refine ⟨by decide, by decide, by decide, by decide⟩

/-- C3 witness: the amended behaviour at a concrete output with neither
a result line nor a summary clause. -/
theorem claim_C3_unknown_result_witness :
    parsePytestOutput ("zzz".toList) =
      [{ name := "unknown".toList, passed := false,
         output := "No tests found in output".toList }] ∧
    extractSummary ("zzz".toList) = "Unknown test results".toList :=
  ⟨(claim_C3_unknown_result ("zzz".toList) (by decide)).1,
   (claim_C3_unknown_result ("zzz".toList) (by decide)).2 (by decide)⟩

/-- C8 (amended): when the completion service's response is not
decodable as JSON, `generate_flowchart` returns the deterministic
fallback flowchart: node count `4 + (1 if parameters else 0)` — start,
optional input, function-call, output, end — edge count one less, and
the edges form the sequential path from the `start` node to the `end`
node. -/
theorem claim_C8_fallback_flowchart_shape (req : FunctionRequirements)
    (resp : List Char) (h : jsonParse (extractFlowchartJson resp) = none) :
    generateFlowchart req resp = .ok (fallbackFlowchart req) ∧
    (fallbackFlowchart req).nodes.length =
      4 + (if req.parameters.isEmpty then 0 else 1) ∧
    (fallbackFlowchart req).edges.length = (fallbackFlowchart req).nodes.length - 1 ∧
    (fallbackFlowchart req).edges.map (fun e => (e.from_node, e.to_node)) =
      ((fallbackFlowchart req).nodes.map (fun n => n.id)).zip
        (((fallbackFlowchart req).nodes.map (fun n => n.id)).tail) ∧
    ((fallbackFlowchart req).nodes.map (fun n => n.id)).head? = some ("start".toList) ∧
    ((fallbackFlowchart req).nodes.map (fun n => n.id)).getLast? = some ("end".toList) := by
  constructor
  · simp only [generateFlowchart, h]
  · refine ⟨?_, ?_, ?_, ?_, ?_⟩ <;>
      rcases req with ⟨name, purpose, params, rt, ec, ex, ct⟩ <;>
      cases params <;> simp [fallbackFlowchart]

/-- C8 witness: the fallback shape at a concrete requirement (one
parameter) and an undecodable response. -/
theorem claim_C8_fallback_flowchart_shape_witness :
    generateFlowchart sampleReq ("no json here".toList) =
      .ok (fallbackFlowchart sampleReq) ∧
    (fallbackFlowchart sampleReq).nodes.length =
      4 + (if sampleReq.parameters.isEmpty then 0 else 1) :=
  ⟨(claim_C8_fallback_flowchart_shape sampleReq ("no json here".toList) rfl).1,
   (claim_C8_fallback_flowchart_shape sampleReq ("no json here".toList) rfl).2.1⟩

/-- C8 counterexample: for a parameterless requirement the fallback
flowchart returned on an undecodable response has 4 nodes (start,
function-call, output, end), not the `3 + 0` the claim asserts. -/
theorem claim_C8_counterexample :
    generateFlowchart sampleReqNoParams ("not parseable json".toList) =
      .ok (fallbackFlowchart sampleReqNoParams) ∧
    (fallbackFlowchart sampleReqNoParams).nodes.length = 4 ∧
    sampleReqNoParams.parameters.isEmpty = true ∧
    (fallbackFlowchart sampleReqNoParams).nodes.length ≠ 3 := by
  refine ⟨rfl, by decide, by decide, by decide⟩

/-- Helper: `Char.ofNat` at a valid code point round-trips through
`toNat`. -/
theorem char_toNat_ofNat_valid (n : Nat) (h : n.isValidChar) :
    (Char.ofNat n).toNat = n := by
  simp [Char.ofNat, h, Char.toNat, Char.ofNatAux, UInt32.toNat, BitVec.toNat_ofNatLt]

/-- Helper: lower-casing an ASCII character yields an ASCII character
that is not an uppercase letter. -/
theorem pyToLower_ascii (a : Char) (ha : a.toNat < 128) :
    (pyToLower a).toNat < 128 ∧
    ¬(65 ≤ (pyToLower a).toNat ∧ (pyToLower a).toNat ≤ 90) := by
  unfold pyToLower
  by_cases h : (65 ≤ a.toNat ∧ a.toNat ≤ 90) ∨ (192 ≤ a.toNat ∧ a.toNat ≤ 214) ∨
      (216 ≤ a.toNat ∧ a.toNat ≤ 222)
  · rw [if_pos h, char_toNat_ofNat_valid _ (by constructor; omega)]
    omega
  · rw [if_neg h]
    exact ⟨ha, by omega⟩

/-- Helper: the character substitutions of the sanitizer (to `_`)
preserve being ASCII and not an uppercase letter. -/
theorem substUnderscore_preserves (t x : Char)
    (hx : x.toNat < 128 ∧ ¬(65 ≤ x.toNat ∧ x.toNat ≤ 90)) :
    (if x = t then '_' else x).toNat < 128 ∧
    ¬(65 ≤ (if x = t then '_' else x).toNat ∧
      (if x = t then '_' else x).toNat ≤ 90) := by
  by_cases h : x = t
  · rw [if_pos h]; exact ⟨by decide, by decide⟩
  · rw [if_neg h]; exact hx

/-- Helper: an ASCII non-uppercase character kept by the sanitizer's
final filter is a lowercase letter, a digit, or an underscore (the
`pyIsAlnum` clauses above ASCII need code points ≥ 170, which an ASCII
character cannot be). -/
theorem goodIdentChar_of_ascii_kept (c : Char)
    (hc : c.toNat < 128 ∧ ¬(65 ≤ c.toNat ∧ c.toNat ≤ 90))
    (hp : (pyIsAlnum c || decide (c = '_')) = true) :
    goodIdentChar c = true := by
  simp only [goodIdentChar, pyIsAlnum, Bool.or_eq_true, Bool.and_eq_true,
    decide_eq_true_eq, beq_iff_eq, bne_iff_ne] at hp ⊢
  rcases hp with hp | hp
  · have harith : (97 ≤ c.toNat ∧ c.toNat ≤ 122) ∨
        (48 ≤ c.toNat ∧ c.toNat ≤ 57) := by omega
    rcases harith with h | h
    · exact Or.inl (Or.inl h)
    · exact Or.inl (Or.inr h)
  · exact Or.inr hp

/-- Helper: when the description is ASCII, every character surviving the
sanitizer is a lowercase ASCII letter, a digit, or an underscore. -/
theorem sanitize_chars_good_of_ascii (d : List Char)
    (hd : ∀ c ∈ d, c.toNat < 128) :
    ∀ c ∈ sanitizeDescription d, goodIdentChar c = true := by
  intro c hc
  simp only [sanitizeDescription] at hc
  have hc7 := List.mem_of_mem_take hc
  rw [List.mem_filter] at hc7
  obtain ⟨h6, hp⟩ := hc7
  rw [List.mem_map] at h6
  obtain ⟨b5, hb5, rfl⟩ := h6
  rw [List.mem_map] at hb5
  obtain ⟨b4, hb4, rfl⟩ := hb5
  rw [List.mem_filter] at hb4
  obtain ⟨hb4, _⟩ := hb4
  rw [List.mem_filter] at hb4
  obtain ⟨hb4, _⟩ := hb4
  rw [List.mem_map] at hb4
  obtain ⟨b1, hb1, rfl⟩ := hb4
  rw [List.mem_map] at hb1
  obtain ⟨a, ha, rfl⟩ := hb1
  exact goodIdentChar_of_ascii_kept _
    (substUnderscore_preserves '/' _
      (substUnderscore_preserves '-' _
        (substUnderscore_preserves ' ' _ (pyToLower_ascii a (hd a ha))))) hp

/-- Helper: the sanitized description is truncated to 60 characters. -/
theorem sanitize_length_le (d : List Char) :
    (sanitizeDescription d).length ≤ 60 := by
  simp only [sanitizeDescription]
  exact List.length_take_le 60 _

/-- Helper: filtering the per-case blocks for assertion-statement lines
keeps exactly the one assertion of each case, in order. -/
theorem filter_assert_flatMap (fn : List Char) (approved : List ApprovedTestCase) :
    (approved.flatMap (approvedCaseLines fn)).filter
        isAssertLine =
      approved.map (assertLineOf fn) := by
  induction approved with
  | nil => rfl
  | cons t ts ih =>
    have hdef : isAssertLine
        ("def test_".toList ++ sanitizeDescription t.description ++ "():".toList) =
        false := rfl
    have hdoc : isAssertLine
        ("    \"\"\"".toList ++ t.description ++ "\"\"\"".toList) = false := rfl
    have hassert : isAssertLine (assertLineOf fn t) = true := rfl
    have hempty : isAssertLine ([] : List Char) = false := rfl
    simp only [List.flatMap_cons, List.filter_append, approvedCaseLines,
      List.filter_cons, hdef, hdoc, hassert, hempty]
    simp [ih]

/-- Helper: the assertion-statement lines of the materialized test code
are exactly one per approved case, of the form
`assert fn(input) == expected_output`. -/
theorem filter_assert_buildTestLines (req : FunctionRequirements)
    (approved : List ApprovedTestCase) :
    (buildTestLines req approved).filter
        isAssertLine =
      approved.map (assertLineOf req.name) := by
  have h1 : isAssertLine
      ("from function import ".toList ++ req.name) = false := rfl
  have hempty : isAssertLine ([] : List Char) = false := rfl
  simp only [buildTestLines, List.filter_cons, h1, hempty]
  simp [filter_assert_flatMap]

/-- C6 (amended): for every non-empty list of approved cases the
materialized test code holds exactly one assertion line per case, of
the form `assert fn(input) == expected_output`, and the sanitized
description is truncated to at most 60 characters; when a case's
description is ASCII, its generated test identifier consists only of
lowercase letters, digits and underscores — for non-ASCII descriptions
Python's Unicode `str.isalnum` keeps characters such as `²` in the
identifier. -/
theorem claim_C6_materialized_tests (req : FunctionRequirements)
    (approved : List ApprovedTestCase) (h : approved ≠ []) :
    ((buildTestLines req approved).filter
        isAssertLine).length = approved.length ∧
    (buildTestLines req approved).filter
        isAssertLine =
      approved.map (assertLineOf req.name) ∧
    (∀ t ∈ approved, (sanitizeDescription t.description).length ≤ 60) ∧
    (∀ t ∈ approved, (∀ c ∈ t.description, c.toNat < 128) →
      ∀ c ∈ "test_".toList ++ sanitizeDescription t.description,
        goodIdentChar c = true) := by
  refine ⟨?_, filter_assert_buildTestLines req approved, ?_, ?_⟩
  · rw [filter_assert_buildTestLines]
    exact List.length_map approved _
  · intro t ht
    exact sanitize_length_le t.description
  · intro t ht hascii c hc
    rw [List.mem_append] at hc
    rcases hc with hc | hc
    · have hlit : ∀ x ∈ ("test_".toList), goodIdentChar x = true := by decide
      exact hlit c hc
    · exact sanitize_chars_good_of_ascii t.description hascii c hc

/-- C6 counterexample: an approved case described `x²` materializes the
test function header `def test_x²():` — the sanitizer keeps `²`, a
Python-alphanumeric character that is not a lowercase letter, digit or
underscore, so the claimed identifier character set is violated. -/
theorem claim_C6_counterexample :
    sanitizeDescription ("x²".toList) = "x²".toList ∧
    '²' ∈ "test_".toList ++ sanitizeDescription sampleApprovedUnicode.description ∧
    goodIdentChar '²' = false ∧
    (buildTestLines sampleReq [sampleApprovedUnicode]).contains
      ("def test_x²():".toList) = true := by
  refine ⟨by decide, by decide, by decide, by decide⟩

/-- C6 witness: the amended materialization facts at a concrete ASCII
approved case. -/
theorem claim_C6_materialized_tests_witness :
    ((buildTestLines sampleReq [sampleApproved]).filter
        isAssertLine).length = 1 ∧
    (sanitizeDescription sampleApproved.description).length ≤ 60 ∧
    goodIdentChar 't' = true :=
  ⟨(claim_C6_materialized_tests sampleReq [sampleApproved] (by decide)).1,
   (claim_C6_materialized_tests sampleReq [sampleApproved] (by decide)).2.2.1
      sampleApproved (List.mem_singleton.mpr rfl),
   (claim_C6_materialized_tests sampleReq [sampleApproved] (by decide)).2.2.2
      sampleApproved (List.mem_singleton.mpr rfl) (by decide) 't' (by decide)⟩

/-- Helper: `str.find` of a character absent from a prefix locates the
first occurrence right after it. -/
theorem pyFindChar_append_of_not_mem (c : Char) (xs ys : List Char) (h : c ∉ xs) :
    pyFindChar c (xs ++ c :: ys) = some xs.length := by
  induction xs with
  | nil => simp [pyFindChar]
  | cons a as ih =>
    have ha : ¬(a = c) := fun e => h (e ▸ List.mem_cons_self a as)
    simp [pyFindChar, ha, ih (fun hm => h (List.mem_cons_of_mem a hm))]

/-- Helper: `str.rfind` of `]` over prose-wrapped `["x"]` with
bracket-free prose locates the closing bracket. -/
theorem pyRFindChar_prose_array (pre post : List Char) (h : ']' ∉ post) :
    pyRFindChar ']' (pre ++ "[\"x\"]".toList ++ post) = some (pre.length + 4) := by
  unfold pyRFindChar
  have hrev : (pre ++ "[\"x\"]".toList ++ post).reverse =
      post.reverse ++ ']' :: ("\"x\"[".toList ++ pre.reverse) := by
    simp [List.reverse_append]
  rw [hrev, pyFindChar_append_of_not_mem ']' post.reverse _
    (fun hm => h (List.mem_reverse.mp hm))]
  have hlen : (pre ++ "[\"x\"]".toList ++ post).length =
      pre.length + 5 + post.length := by
    simp [List.length_append]
    omega
  rw [hlen]
  simp [List.length_reverse]

/-- Helper: slicing a concatenation at the middle part's bounds returns
the middle part. -/
theorem pySlice_middle (pre mid post : List Char) :
    pySlice (pre ++ mid ++ post) pre.length (pre.length + mid.length) = mid := by
  unfold pySlice
  rw [List.append_assoc, List.take_append mid.length, List.take_left, List.drop_left]

/-- C2 (amended): for a response whose stripped text is `["x"]` wrapped
in bracket-free prose not opening with a fence, `_parse_proposed_tests`
returns exactly one case — but it is the canned fallback (input
`"example"`), not a case of input `x`: the bare-string array element has
no fields, is skipped as malformed, and the zero-survivors fallback
fires. -/
theorem claim_C2_array_with_prose (ids : Nat → List Char) (raw pre post : List Char)
    (hdec : pyStrip raw = pre ++ "[\"x\"]".toList ++ post)
    (hp1 : '[' ∉ pre) (hp2 : ']' ∉ pre) (hq1 : '[' ∉ post) (hq2 : ']' ∉ post)
    (hf : pyStartsWith ("```".toList) (pyStrip raw) = false) :
    parseProposedTests ids raw = fallbackTests ids := by
  have hclean : proposerCleaned raw = pre ++ "[\"x\"]".toList ++ post := by
    simp only [proposerCleaned, hf, Bool.false_eq_true, if_false]
    exact hdec
  have hsplit : pre ++ "[\"x\"]".toList ++ post =
      pre ++ '[' :: ("\"x\"]".toList ++ post) := by
    simp
  have hfind : pyFindChar '[' (pre ++ "[\"x\"]".toList ++ post) = some pre.length := by
    rw [hsplit]
    exact pyFindChar_append_of_not_mem '[' pre _ hp1
  have hrfind : pyRFindChar ']' (pre ++ "[\"x\"]".toList ++ post) =
      some (pre.length + 4) := pyRFindChar_prose_array pre post hq2
  have hslice : pySlice (pre ++ "[\"x\"]".toList ++ post) pre.length
      (pre.length + 4 + 1) = "[\"x\"]".toList := by
    have h5 : pre.length + 4 + 1 = pre.length + ("[\"x\"]".toList).length := by
      simp
    rw [h5]
    exact pySlice_middle pre _ post
  have hj : jsonParse ("[\"x\"]".toList) = some (.arr [.str ['x']]) := rfl
  simp only [parseProposedTests, proposerSliceOf, hclean, hfind, hrfind, hslice, hj]
  rfl

/-- C2 counterexample: at the concrete response
`Here are the tests: ["x"] hope that helps` the recovered single case
has input `"example"` — the fallback — not the literal `x` the claim
asserts. -/
theorem claim_C2_counterexample :
    (parseProposedTests sampleIds rawProseArray).map (fun t => t.input) =
      ["\"example\"".toList] ∧
    "\"example\"".toList ≠ "x".toList ∧
    "\"example\"".toList ≠ "\"x\"".toList := by
  refine ⟨by decide, by decide, by decide⟩

/-- C2 witness: the amended behaviour at the concrete prose-wrapped
response. -/
theorem claim_C2_array_with_prose_witness :
    parseProposedTests sampleIds rawProseArray = fallbackTests sampleIds :=
  claim_C2_array_with_prose sampleIds rawProseArray
    ("Here are the tests: ".toList) (" hope that helps".toList)
    (by decide) (by decide) (by decide) (by decide) (by decide) (by decide)

end Babyccino
